import Mathlib

/-!
Verification of the k8s-test-harness utility library.

The development embeds the two source modules shallowly:
* `docker_util`: the layered-path resolver `check_path_in_layers` over an
  overlay filesystem, and the batch verifier `ensure_image_contains_paths_bare`
  (pure parts modelled directly; the external docker commands are modelled by
  the trace of commands issued and by the inspection result passed in as data).
* `k8s_util`: the call descriptors built by the resource/rollout waiters
  (retry count, inter-attempt delay, command line including the per-attempt
  timeout), the `ready_nodes` node classifier, and the helm install command
  builder.
-/

/- ## Filesystem model (os.lstat results) -/

/-- Result of an `os.lstat` call: the `st_mode` and `st_rdev` fields, which are
the only ones the resolver reads. -/
structure FileStat where
  st_mode : Nat
  st_rdev : Nat
deriving DecidableEq, Repr

/-- The file-type mask `stat.S_IFMT`. -/
def S_IFMT : Nat := 0o170000

/-- The whiteout file type `stat.S_IFWHT`. -/
def S_IFWHT : Nat := 0o160000

/-- The character-device file type `stat.S_IFCHR`. -/
def S_IFCHR : Nat := 0o020000

/-- The mode predicate `stat.S_ISWHT`. -/
def S_ISWHT (mode : Nat) : Bool := mode &&& S_IFMT == S_IFWHT

/-- The mode predicate `stat.S_ISCHR`. -/
def S_ISCHR (mode : Nat) : Bool := mode &&& S_IFMT == S_IFCHR

/-- The device-major extraction `os.major` (glibc gnu_dev_major). -/
def os_major (dev : Nat) : Nat := ((dev >>> 8) &&& 0xfff) ||| ((dev >>> 32) &&& 0xfffff000)

/-- The device-minor extraction `os.minor` (glibc gnu_dev_minor). -/
def os_minor (dev : Nat) : Nat := (dev &&& 0xff) ||| ((dev >>> 12) &&& 0xffffff00)

/-- A filesystem state: maps an absolute path to the lstat result of the entry
there, or `none` when lstat raises FileNotFoundError. -/
def Fs : Type := String → Option FileStat

/-- Python `path.lstrip("/")`: drop every leading slash character. -/
def lstripSlashes (p : String) : String := ⟨p.data.dropWhile (fun c => c == '/')⟩

/-- Python `os.path.join(a, b)` for two posix components. -/
def osPathJoin (a b : String) : String :=
  if b.startsWith ("/") then b
  else if a = "" || a.endsWith ("/") then a ++ b
  else a ++ "/" ++ b

/-- The whiteout test from `_check_path_in_layers`: a whiteout-kind mode, or a
character-special device whose major and minor numbers are both zero. -/
def isWhiteoutStat (st : FileStat) : Bool :=
  S_ISWHT st.st_mode ||
    (S_ISCHR st.st_mode && os_major st.st_rdev == 0 && os_minor st.st_rdev == 0)

/-- Embedding of `docker_util._check_path_in_layers`: scan the layers top to
bottom; in each layer look at `os.path.join(layer, path.lstrip("/"))`; on
FileNotFoundError continue to the next layer; on a whiteout entry return
`false`; on any other entry return `true`; return `false` after all layers. -/
def check_path_in_layers (fs : Fs) (path : String) : List String → Bool
  | [] => false
  | layer :: layers =>
    match fs (osPathJoin layer (lstripSlashes path)) with
    | none => check_path_in_layers fs path layers
    | some st => if isWhiteoutStat st then false else true

/-- Specification-side view of the resolver, following the spec text: the entry
of the first layer that has any entry for the path (at the layer root joined
with the path stripped of leading separators), or `none` when no layer has one. -/
def firstEntryInLayers (fs : Fs) (path : String) : List String → Option FileStat
  | [] => none
  | layer :: layers =>
    match fs (osPathJoin layer (lstripSlashes path)) with
    | none => firstEntryInLayers fs path layers
    | some st => some st

/- ## Batch verification (ensure_image_contains_paths_bare) -/

/-- The `GraphDriver` object of a `docker inspect` result: its `Name` and the
`Data.UpperDir` and `Data.LowerDir` fields read by the source. -/
structure GraphDriver where
  Name : String
  UpperDir : String
  LowerDir : String
deriving DecidableEq, Repr

/-- The per-path assertion loop at the end of `ensure_image_contains_paths_bare`:
check the paths in order and stop at the first one absent from the layer stack,
raising the assertion message that names the path and the image. -/
def verifyAllPathsExist (fs : Fs) (image : String) (layers : List String) :
    List String → Except String Unit
  | [] => Except.ok ()
  | path :: rest =>
    if check_path_in_layers fs path layers then
      verifyAllPathsExist fs image layers rest
    else
      Except.error ("Expected " ++ path ++ " to exist in " ++ image ++ ".")

/-- Embedding of `docker_util.ensure_image_contains_paths_bare`. The external
world enters as data: `inspectResult` is the `GraphDriver` object produced by
`docker inspect` (or `none` when the key is missing), and `fs` is the
filesystem state probed by lstat. The returned pair is the trace of docker
commands issued and the overall outcome (`Except.error` models a failed
assertion, carrying its message). -/
def ensure_image_contains_paths_bare (image : String) (paths : List String)
    (inspectResult : Option GraphDriver) (fs : Fs) :
    List (List String) × Except String Unit :=
  if paths.isEmpty then ([], Except.ok ())
  else
    let cmds := [["docker", "pull", image], ["docker", "inspect", image]]
    match inspectResult with
    | none => (cmds, Except.error ("Expected docker inspect result to contain GraphDriver"))
    | some gd =>
      if gd.Name = "overlay2" then
        let layers := gd.UpperDir :: gd.LowerDir.splitOn (":")
        (cmds, verifyAllPathsExist fs image layers paths)
      else
        (cmds, Except.error ("Unsupported image GraphDriver: " ++ gd.Name))

/- ## Claim C1 -/

/-- C1: `check_path_in_layers` returns the verdict of the first layer that has
any entry for the path (entry looked up at the layer root joined with the path
stripped of its leading separators): `false` when that entry is a whiteout
marker (whiteout-kind mode, or character-special device with major 0 and
minor 0), `true` for any other entry, and `false` when no layer has an entry.
Because the result is determined by `firstEntryInLayers`, which never looks
past the first layer containing an entry, lower layers are never consulted
after the first match. -/
theorem c1_first_match_verdict (fs : Fs) (path : String) (layers : List String) :
    check_path_in_layers fs path layers =
      (match firstEntryInLayers fs path layers with
       | none => false
       | some st => !(isWhiteoutStat st)) := by
  induction layers with
  | nil => rfl
  | cons layer rest ih =>
    simp only [check_path_in_layers, firstEntryInLayers]
    cases h : fs (osPathJoin layer (lstripSlashes path)) with
    | none => simpa [h] using ih
    | some st => by_cases hw : isWhiteoutStat st <;> simp [h, hw]

/- ## Claim C2 -/

/-- C2: the batch verifier checks the paths in caller-supplied order and fails
fast on the first path that resolves to absent: whenever every path of `pre`
resolves to present and `p` resolves to absent, the verification of
`pre ++ p :: post` fails with the assertion message naming `p` and the image,
for every tail `post` — so the paths after the first missing one never
influence the outcome (they are never checked). -/
theorem c2_fail_fast (fs : Fs) (image : String) (layers : List String)
    (pre : List String) (p : String) (post : List String)
    (hpre : ∀ q ∈ pre, check_path_in_layers fs q layers = true)
    (hp : check_path_in_layers fs p layers = false) :
    verifyAllPathsExist fs image layers (pre ++ p :: post) =
      Except.error ("Expected " ++ p ++ " to exist in " ++ image ++ ".") := by
  induction pre with
  | nil => simp [verifyAllPathsExist, hp]
  | cons q qs ih =>
    have hq : check_path_in_layers fs q layers = true := hpre q (by simp)
    have hqs : ∀ r ∈ qs, check_path_in_layers fs r layers = true := by
      intro r hr
      exact hpre r (by simp [hr])
    simpa [verifyAllPathsExist, hq] using ih hqs

/-- Witness for C2: with an empty filesystem and no layers, verifying
`["/b", "/c"]` fails naming `/b`. -/
theorem c2_fail_fast_witness :
    verifyAllPathsExist (fun _ => none) ("img") [] (["/b", "/c"]) =
      Except.error ("Expected /b to exist in img.") :=
  c2_fail_fast (fun _ => none) ("img") [] [] ("/b") (["/c"])
    (by intro q hq; cases hq) rfl

/- ## Claim C5 -/

/-- C5: when the inspected graph driver is the overlay2 kind and the path list
is nonempty, the outcome of `ensure_image_contains_paths_bare` is exactly the
batch verification over the layer stack `UpperDir :: LowerDir.split(":")` —
the upper directory first, followed by the colon-separated lower directories
in order. Moreover the topmost layer takes precedence: whenever the upper
directory itself holds an entry for a path, the resolver's verdict on that
stack is decided by that entry alone. -/
theorem c5_layerstack (image : String) (paths : List String) (gd : GraphDriver)
    (fs : Fs) (hne : paths ≠ []) (hdrv : gd.Name = "overlay2") :
    (ensure_image_contains_paths_bare image paths (some gd) fs).2 =
      verifyAllPathsExist fs image (gd.UpperDir :: gd.LowerDir.splitOn (":")) paths ∧
    (∀ p st, fs (osPathJoin gd.UpperDir (lstripSlashes p)) = some st →
      check_path_in_layers fs p (gd.UpperDir :: gd.LowerDir.splitOn (":")) =
        !(isWhiteoutStat st)) := by
  constructor
  · simp [ensure_image_contains_paths_bare, hne, hdrv]
  · intro p st hst
    by_cases hw : isWhiteoutStat st <;> simp [check_path_in_layers, hst, hw]

/-- Filesystem state used by the C5 witness: a single regular file at
`/u/a` in the upper directory. -/
def c5fs : Fs := fun s => if s = "/u/a" then some ⟨0o100644, 0⟩ else none

/-- Witness for C5: a concrete overlay2 descriptor with two lower layers and a
regular file in the upper directory. -/
theorem c5_layerstack_witness :
    (ensure_image_contains_paths_bare ("img") (["/a"])
        (some ⟨"overlay2", "/u", "/l1:/l2"⟩) c5fs).2 =
      verifyAllPathsExist c5fs ("img") ("/u" :: ("/l1:/l2").splitOn (":")) (["/a"]) ∧
    (∀ p st, c5fs (osPathJoin ("/u") (lstripSlashes p)) = some st →
      check_path_in_layers c5fs p ("/u" :: ("/l1:/l2").splitOn (":")) =
        !(isWhiteoutStat st)) :=
  c5_layerstack ("img") (["/a"]) ⟨"overlay2", "/u", "/l1:/l2"⟩ c5fs
    (by decide) rfl

/- ## Claim C6 -/

/-- C6: when the inspected graph driver is not overlay2 and there are paths to
check, `ensure_image_contains_paths_bare` fails with the assertion message
naming the driver, and the whole outcome is independent of the filesystem
state — no path in the layer stack is ever checked. The failure is a plain
assertion raised once, with no retry in the source. -/
theorem c6_unsupported_driver (image : String) (paths : List String)
    (gd : GraphDriver) (fs fs' : Fs)
    (hne : paths ≠ []) (hdrv : gd.Name ≠ "overlay2") :
    (ensure_image_contains_paths_bare image paths (some gd) fs).2 =
      Except.error ("Unsupported image GraphDriver: " ++ gd.Name) ∧
    ensure_image_contains_paths_bare image paths (some gd) fs =
      ensure_image_contains_paths_bare image paths (some gd) fs' := by
  constructor
  · simp [ensure_image_contains_paths_bare, hne, hdrv]
  · simp [ensure_image_contains_paths_bare, hne, hdrv]

/-- Empty filesystem state used by the C6 witness. -/
def c6fsEmpty : Fs := fun _ => none

/-- Nonempty filesystem state used by the C6 witness. -/
def c6fsFull : Fs := fun _ => some ⟨0o100644, 0⟩

/-- Witness for C6: the driver name aufs is rejected whatever the filesystem
holds. -/
theorem c6_unsupported_driver_witness :
    (ensure_image_contains_paths_bare ("img") (["/a"])
        (some ⟨"aufs", "/u", "/l"⟩) c6fsEmpty).2 =
      Except.error ("Unsupported image GraphDriver: " ++ "aufs") ∧
    ensure_image_contains_paths_bare ("img") (["/a"])
        (some ⟨"aufs", "/u", "/l"⟩) c6fsEmpty =
      ensure_image_contains_paths_bare ("img") (["/a"])
        (some ⟨"aufs", "/u", "/l"⟩) c6fsFull :=
  c6_unsupported_driver ("img") (["/a"]) ⟨"aufs", "/u", "/l"⟩
    c6fsEmpty c6fsFull (by decide) (by decide)

/- ## Claim C7 -/

/-- C7: the resolver is deterministic — over one filesystem state, two calls on
identical `(path, layers)` inputs return the same boolean. In this embedding
`check_path_in_layers` is a pure function of the filesystem state, the path and
the layer list, so equal inputs give equal outputs. -/
theorem c7_deterministic (fs : Fs) (p p' : String) (ls ls' : List String)
    (hp : p = p') (hls : ls = ls') :
    check_path_in_layers fs p ls = check_path_in_layers fs p' ls' := by
  subst hp; subst hls; rfl

/-- Witness for C7 at a concrete input. -/
theorem c7_deterministic_witness :
    check_path_in_layers (fun _ => none) ("/a") (["/u"]) =
      check_path_in_layers (fun _ => none) ("/a") (["/u"]) :=
  c7_deterministic (fun _ => none) ("/a") ("/a") (["/u"]) (["/u"]) rfl rfl

/- ## Claim C10 -/

/-- C10: called with an empty path list, `ensure_image_contains_paths_bare`
returns success at once with an empty command trace — no docker pull, no
docker inspect — and the outcome is `ok`, whatever the inspection result or
the filesystem state would have been. -/
theorem c10_empty_paths (image : String) (inspectResult : Option GraphDriver)
    (fs : Fs) :
    ensure_image_contains_paths_bare image [] inspectResult fs =
      ([], Except.ok ()) := rfl

/- ## Substring containment (Python `in` on strings) -/

/-- Boolean test that `sub` is an initial segment of `l`. -/
def charsLeads : List Char → List Char → Bool
  | [], _ => true
  | _ :: _, [] => false
  | a :: as, b :: bs => a == b && charsLeads as bs

/-- Boolean test that `sub` occurs contiguously inside `l`: Python substring
containment on the character lists. -/
def charsHas (sub : List Char) : List Char → Bool
  | [] => charsLeads sub []
  | b :: bs => charsLeads sub (b :: bs) || charsHas sub bs

/-- Python `sub in s` on strings. -/
def strHas (s sub : String) : Bool := charsHas sub.data s.data

/-- Soundness of `charsLeads`: it decides being an initial segment. -/
theorem charsLeads_iff (sub l : List Char) :
    charsLeads sub l = true ↔ ∃ t, l = sub ++ t := by
  induction sub generalizing l with
  | nil => simp [charsLeads]
  | cons a as ih =>
    cases l with
    | nil => simp [charsLeads]
    | cons b bs =>
      simp only [charsLeads, Bool.and_eq_true, beq_iff_eq, ih, List.cons_append]
      constructor
      · rintro ⟨rfl, t, rfl⟩
        exact ⟨t, rfl⟩
      · rintro ⟨t, h⟩
        rw [List.cons_eq_cons] at h
        exact ⟨h.1.symm, t, h.2⟩

/-- Soundness of `charsHas`: it decides contiguous occurrence. -/
theorem charsHas_iff (sub l : List Char) :
    charsHas sub l = true ↔ ∃ a b, l = a ++ sub ++ b := by
  induction l with
  | nil =>
    constructor
    · intro h
      rcases (charsLeads_iff sub []).mp h with ⟨t, ht⟩
      exact ⟨[], t, ht⟩
    · rintro ⟨a, b, hab⟩
      rcases List.append_eq_nil.mp hab.symm with ⟨h1, rfl⟩
      rcases List.append_eq_nil.mp h1 with ⟨rfl, rfl⟩
      exact (charsLeads_iff [] []).mpr ⟨[], rfl⟩
  | cons c cs ih =>
    constructor
    · intro h
      have h' : (charsLeads sub (c :: cs) || charsHas sub cs) = true := h
      simp only [Bool.or_eq_true] at h'
      rcases h' with h1 | h2
      · rcases (charsLeads_iff sub (c :: cs)).mp h1 with ⟨t, ht⟩
        exact ⟨[], t, by simpa using ht⟩
      · rcases ih.mp h2 with ⟨a, b, hab⟩
        exact ⟨c :: a, b, by simp [hab]⟩
    · rintro ⟨a, b, hab⟩
      show (charsLeads sub (c :: cs) || charsHas sub cs) = true
      simp only [Bool.or_eq_true]
      cases a with
      | nil =>
        left
        exact (charsLeads_iff sub (c :: cs)).mpr ⟨b, by simpa using hab⟩
      | cons a0 aTail =>
        right
        apply ih.mpr
        refine ⟨aTail, b, ?_⟩
        simp only [List.cons_append] at hab
        exact (List.cons_eq_cons.mp hab).2

/- ## Waiter call descriptors (k8s_util) -/

/-- The call a waiter hands to the stubborn poller: the retry count and
inter-attempt delay given to `stubbornly(retries=..., delay_s=...)`, the
optional satisfaction predicate over decoded stdout installed with `.until`,
and the command line given to `.exec`. -/
structure StubbornCall where
  retries : Nat
  delay_s : Nat
  until_pred : Option (String → Bool)
  cmd : List String

/-- Modelled from the spec: value of `constants.K8S_NS_DEFAULT`, whose module is
not under src; the claims settled here do not depend on this value. -/
def K8S_NS_DEFAULT : String := "default"

/-- Modelled from the spec: value of `constants.K8S_CONDITION_AVAILABLE`, whose
module is not under src; the claims settled here do not depend on this value. -/
def K8S_CONDITION_AVAILABLE : String := "Available"

/-- Modelled from the spec: value of `constants.K8S_DAEMONSET`, whose module is
not under src; the claims settled here do not depend on this value. -/
def K8S_DAEMONSET : String := "daemonset"

/-- Modelled from the spec: value of `constants.K8S_STATEFULSET`, whose module
is not under src; the claims settled here do not depend on this value. -/
def K8S_STATEFULSET : String := "statefulset"

/-- Modelled from the spec: value of `constants.K8S_DEPLOYMENT`, whose module
is not under src; the claims settled here do not depend on this value. -/
def K8S_DEPLOYMENT : String := "deployment"

/-- The readiness marker the node-ready waiter looks for in the kubectl
output: the string " Ready" (with its leading space, as in the source). -/
def readyMarker : String := " Ready"

/-- Embedding of the `stubbornly` call made per instance inside
`k8s_util.wait_until_k8s_ready`: retries 120, delay 5 seconds, predicate that
the decoded stdout contains " Ready", command `kubectl get node <host>`. -/
def wait_until_k8s_ready_call (host : String) : StubbornCall :=
  ⟨120, 5, some (fun out => strHas out readyMarker),
    ["k8s", "kubectl", "get", "node", host, "--no-headers"]⟩

/-- Default of the `retry_times` parameter of `k8s_util.wait_for_resource`. -/
def wait_for_resource_default_retry_times : Nat := 5

/-- Default of the `retry_delay_s` parameter of `k8s_util.wait_for_resource`. -/
def wait_for_resource_default_retry_delay_s : Nat := 60

/-- Embedding of `k8s_util.wait_for_resource` (Python default arguments made
explicit; the defaults are the constants above): a stubbornly call with the
caller's retry count and delay, no `.until` predicate, and a `kubectl wait`
command whose per-attempt timeout is the literal "1s". -/
def wait_for_resource (resource_type name ns condition : String)
    (retry_times retry_delay_s : Nat) : StubbornCall :=
  ⟨retry_times, retry_delay_s, none,
    ["k8s", "kubectl", "wait", "--namespace", ns,
      "--for=condition=" ++ condition, resource_type, name, "--timeout", "1s"]⟩

/-- Default of the `retry_times` parameter of `k8s_util.wait_for_daemonset`. -/
def wait_for_daemonset_default_retry_times : Nat := 5

/-- Default of the `retry_delay_s` parameter of `k8s_util.wait_for_daemonset`. -/
def wait_for_daemonset_default_retry_delay_s : Nat := 60

/-- Embedding of `k8s_util.wait_for_daemonset`: a stubbornly call with the
caller's retry count and delay, no `.until` predicate, and a
`kubectl rollout status` command whose per-attempt timeout is the literal
"1s". -/
def wait_for_daemonset (name ns : String)
    (retry_times retry_delay_s : Nat) : StubbornCall :=
  ⟨retry_times, retry_delay_s, none,
    ["k8s", "kubectl", "rollout", "status", "--namespace", ns,
      K8S_DAEMONSET, name, "--timeout", "1s"]⟩

/-- Default of the `retry_times` parameter of `k8s_util.wait_for_statefulset`. -/
def wait_for_statefulset_default_retry_times : Nat := 5

/-- Default of the `retry_delay_s` parameter of
`k8s_util.wait_for_statefulset`. -/
def wait_for_statefulset_default_retry_delay_s : Nat := 60

/-- Embedding of `k8s_util.wait_for_statefulset`: like the daemonset waiter but
over the statefulset resource kind. -/
def wait_for_statefulset (name ns : String)
    (retry_times retry_delay_s : Nat) : StubbornCall :=
  ⟨retry_times, retry_delay_s, none,
    ["k8s", "kubectl", "rollout", "status", "--namespace", ns,
      K8S_STATEFULSET, name, "--timeout", "1s"]⟩

/-- Default of the `retry_times` parameter of `k8s_util.wait_for_deployment`. -/
def wait_for_deployment_default_retry_times : Nat := 5

/-- Default of the `retry_delay_s` parameter of
`k8s_util.wait_for_deployment`. -/
def wait_for_deployment_default_retry_delay_s : Nat := 60

/-- Embedding of `k8s_util.wait_for_deployment`: delegates to
`wait_for_resource` over the deployment resource kind, passing its own
arguments through. -/
def wait_for_deployment (name ns condition : String)
    (retry_times retry_delay_s : Nat) : StubbornCall :=
  wait_for_resource K8S_DEPLOYMENT name ns condition retry_times retry_delay_s

/- ## Claim C3 -/

/-- C3 counterexample: the per-attempt timeout of the resource and rollout
waiters is not configurable by the caller. As a function of every caller
parameter, the last token of the generated command — the value of the
`--timeout` flag — is the constant "1s" for `wait_for_resource` and for
`wait_for_daemonset`: no choice of arguments changes it, refuting that both
timeouts are independently configurable. -/
theorem c3_timeout_not_configurable :
    ((fun (resource_type name ns condition : String) (retry_times retry_delay_s : Nat) =>
        (wait_for_resource resource_type name ns condition
          retry_times retry_delay_s).cmd.getLast?) =
      (fun _ _ _ _ _ _ => some ("1s"))) ∧
    ((fun (name ns : String) (retry_times retry_delay_s : Nat) =>
        (wait_for_daemonset name ns retry_times retry_delay_s).cmd.getLast?) =
      (fun _ _ _ _ => some ("1s"))) := by
  constructor
  · funext resource_type name ns condition retry_times retry_delay_s
    rfl
  · funext name ns retry_times retry_delay_s
    rfl

/-- C3 as amended: every per-attempt invocation of the resource and rollout
waiters carries the short internal timeout "1s" passed through `--timeout`,
distinct from and independent of the poller's inter-attempt delay; the retry
count and the inter-attempt delay are caller-configurable (they are exactly
the caller's `retry_times` and `retry_delay_s` arguments), but the internal
per-attempt timeout is fixed at "1s" and is not configurable. -/
theorem c3_amended_fixed_timeout
    (resource_type name ns condition : String) (retry_times retry_delay_s : Nat) :
    (wait_for_resource resource_type name ns condition
        retry_times retry_delay_s).retries = retry_times ∧
    (wait_for_resource resource_type name ns condition
        retry_times retry_delay_s).delay_s = retry_delay_s ∧
    (∃ front, (wait_for_resource resource_type name ns condition
        retry_times retry_delay_s).cmd = front ++ ["--timeout", "1s"]) ∧
    (wait_for_daemonset name ns retry_times retry_delay_s).retries = retry_times ∧
    (wait_for_daemonset name ns retry_times retry_delay_s).delay_s = retry_delay_s ∧
    (∃ front, (wait_for_daemonset name ns retry_times retry_delay_s).cmd =
        front ++ ["--timeout", "1s"]) ∧
    (wait_for_statefulset name ns retry_times retry_delay_s).retries = retry_times ∧
    (wait_for_statefulset name ns retry_times retry_delay_s).delay_s = retry_delay_s ∧
    (∃ front, (wait_for_statefulset name ns retry_times retry_delay_s).cmd =
        front ++ ["--timeout", "1s"]) := by
  refine ⟨rfl, rfl, ?_, rfl, rfl, ?_, rfl, rfl, ?_⟩
  · exact ⟨["k8s", "kubectl", "wait", "--namespace", ns,
      "--for=condition=" ++ condition, resource_type, name], rfl⟩
  · exact ⟨["k8s", "kubectl", "rollout", "status", "--namespace", ns,
      K8S_DAEMONSET, name], rfl⟩
  · exact ⟨["k8s", "kubectl", "rollout", "status", "--namespace", ns,
      K8S_STATEFULSET, name], rfl⟩

/- ## Claim C4 -/

/-- C4: the waiter policies match the spec table. The node-ready waiter built
inside `wait_until_k8s_ready` uses 120 attempts with a 5-second delay and is
satisfied exactly when the decoded node status text contains the readiness
marker " Ready"; the resource-condition waiter `wait_for_resource` and the
rollout waiters `wait_for_daemonset`, `wait_for_statefulset` and
`wait_for_deployment` all default to 5 attempts with a 60-second delay. -/
theorem c4_waiter_policies (host out resource_type name ns condition : String) :
    (wait_until_k8s_ready_call host).retries = 120 ∧
    (wait_until_k8s_ready_call host).delay_s = 5 ∧
    (∃ p, (wait_until_k8s_ready_call host).until_pred = some p ∧
      (p out = true ↔ ∃ a b, out.data = a ++ readyMarker.data ++ b)) ∧
    (wait_for_resource resource_type name ns condition
        wait_for_resource_default_retry_times
        wait_for_resource_default_retry_delay_s).retries = 5 ∧
    (wait_for_resource resource_type name ns condition
        wait_for_resource_default_retry_times
        wait_for_resource_default_retry_delay_s).delay_s = 60 ∧
    (wait_for_daemonset name ns wait_for_daemonset_default_retry_times
        wait_for_daemonset_default_retry_delay_s).retries = 5 ∧
    (wait_for_daemonset name ns wait_for_daemonset_default_retry_times
        wait_for_daemonset_default_retry_delay_s).delay_s = 60 ∧
    (wait_for_statefulset name ns wait_for_statefulset_default_retry_times
        wait_for_statefulset_default_retry_delay_s).retries = 5 ∧
    (wait_for_statefulset name ns wait_for_statefulset_default_retry_times
        wait_for_statefulset_default_retry_delay_s).delay_s = 60 ∧
    (wait_for_deployment name ns condition
        wait_for_deployment_default_retry_times
        wait_for_deployment_default_retry_delay_s).retries = 5 ∧
    (wait_for_deployment name ns condition
        wait_for_deployment_default_retry_times
        wait_for_deployment_default_retry_delay_s).delay_s = 60 := by
  refine ⟨rfl, rfl, ⟨fun s => strHas s readyMarker, rfl, ?_⟩,
    rfl, rfl, rfl, rfl, rfl, rfl, rfl, rfl⟩
  exact charsHas_iff readyMarker.data out.data

/- ## Node readiness classifier (ready_nodes) -/

/-- One entry of a node's `status.conditions` list: the `type` and `status`
fields read by the source. -/
structure NodeCondition where
  type : String
  status : String
deriving DecidableEq, Repr

/-- The `status` object of a node, holding its conditions. -/
structure NodeStatus where
  conditions : List NodeCondition
deriving DecidableEq, Repr

/-- A node as consumed by `ready_nodes`. -/
structure Node where
  status : NodeStatus
deriving DecidableEq, Repr

/-- Embedding of `k8s_util.ready_nodes` applied to the node list obtained from
`get_nodes`: keep the nodes for which every status condition whose type is not
"Ready" has status "False". -/
def ready_nodes (nodes : List Node) : List Node :=
  nodes.filter (fun node =>
    (node.status.conditions.filter (fun c => c.type != "Ready")).all
      (fun c => c.status == "False"))

/- ## Claim C9 -/

/-- C9: `ready_nodes` returns exactly the input nodes for which every status
condition whose type is not "Ready" has status "False". The status of a
condition of type "Ready" never appears in the membership criterion, so a node
whose Ready condition is not "True" is still classified ready provided all its
other conditions have status "False". -/
theorem c9_ready_nodes_classifier (nodes : List Node) (n : Node) :
    n ∈ ready_nodes nodes ↔
      n ∈ nodes ∧
        ∀ c ∈ n.status.conditions, c.type ≠ "Ready" → c.status = "False" := by
  simp only [ready_nodes, List.mem_filter, List.all_eq_true, List.mem_filter,
    Bool.and_eq_true, bne_iff_ne, beq_iff_eq, ne_eq]
  constructor
  · rintro ⟨hn, hall⟩
    refine ⟨hn, ?_⟩
    intro c hc hne
    exact hall c ⟨hc, by simpa using hne⟩
  · rintro ⟨hn, hall⟩
    refine ⟨hn, ?_⟩
    intro c hc
    exact hall c hc.1 (by simpa using hc.2)

/- ## Helm install command builder -/

/-- The `HelmImage` named tuple of the source. Its first field is the image
uri; the source's second field is named prefix, a reserved word here, so it
appears as `pfx`; `none` plays the role of Python's None defaults. -/
structure HelmImage where
  uri : String
  pfx : Option String
  subitem : Option String
deriving DecidableEq, Repr

/-- The settings contributed by one image descriptor inside
`get_helm_install_command`: the optional registry split, then repository, tag
and runAsUser settings, each preceded by "--set". Returns `none` when the uri
has no ":" separator (the source would raise an IndexError reading the tag). -/
def helmImageSettings (split_image_registry : Bool) (runAsUser : Nat)
    (image : HelmImage) : Option (List String) :=
  let image_split := image.uri.splitOn (":")
  match image_split[1]? with
  | none => none
  | some tag =>
    let image_name := image_split.headD ("")
    let pfx : String :=
      match image.pfx with
      | none => ""
      | some s => if s = "" then "" else s ++ "."
    let sub : String :=
      match image.subitem with
      | none => ""
      | some s => if s = "" then "" else s ++ "."
    let split_result : List String × String :=
      if split_image_registry then
        let parts := image_name.splitOn ("/")
        let registry_and_name : String × String :=
          if parts.length > 2 then
            (parts.headD (""), String.intercalate ("/") parts.tail)
          else ("docker.io", image_name)
        (["--set", pfx ++ "image." ++ sub ++ "registry=" ++ registry_and_name.1],
          registry_and_name.2)
      else ([], image_name)
    some (split_result.1 ++
      ["--set", pfx ++ "image." ++ sub ++ "repository=" ++ split_result.2,
        "--set", pfx ++ "image." ++ sub ++ "tag=" ++ tag,
        "--set", pfx ++ "securityContext.runAsUser=" ++ toString runAsUser])

/-- The pairing of set_configs with "--set" markers at the end of
`get_helm_install_command`: the source zips a list of "--set" markers of the
same length as `set_configs` against `set_configs` (zip_longest of two
equal-length lists is their zip) and flattens the pairs. -/
def helmSetPairs (set_configs : List String) : List String :=
  (((List.replicate set_configs.length ("--set")).zip set_configs).map
    (fun pair => [pair.1, pair.2])).flatten

/-- Embedding of `k8s_util.get_helm_install_command` (Python default arguments
made explicit by the caller; `None` collections already replaced by empty
ones). Returns `none` when some image uri lacks a ":" separator, where the
source raises. -/
def get_helm_install_command (name chart_name ns : String)
    (repository : Option String) (images : List HelmImage) (runAsUser : Nat)
    (set_configs : List String) (chart_version : Option String)
    (split_image_registry : Bool) : Option (List String) :=
  let helm_command := ["k8s", "helm", "install", name, chart_name,
    "--namespace", ns, "--create-namespace"]
  let helm_command := helm_command ++
    (match repository with
     | none => []
     | some r => if r = "" then [] else ["--repo", r])
  let helm_command := helm_command ++
    (match chart_version with
     | none => []
     | some v => if v = "" then [] else ["--version", v])
  match images.mapM (helmImageSettings split_image_registry runAsUser) with
  | none => none
  | some image_args =>
    some (helm_command ++ image_args.flatten ++ helmSetPairs set_configs)

/- ## Claim C8 -/

/-- The "--set" pairing block equals the flat interleaving that puts one
"--set" marker immediately before each raw setting, in input order. -/
theorem helmSetPairs_eq (set_configs : List String) :
    helmSetPairs set_configs = set_configs.flatMap (fun c => ["--set", c]) := by
  induction set_configs with
  | nil => rfl
  | cons c cs ih =>
    simpa [helmSetPairs, List.replicate_succ] using ih

/-- C8: whenever the builder succeeds, every raw key=value setting of
`set_configs` is appended verbatim to the argument list, each immediately
preceded by a "--set" token, in the same relative order as the input list, and
the whole block sits at the end of the command, after the base arguments and
after all image-derived settings. -/
theorem c8_set_configs_verbatim (name chart_name ns : String)
    (repository : Option String) (images : List HelmImage) (runAsUser : Nat)
    (set_configs : List String) (chart_version : Option String)
    (split_image_registry : Bool) (image_args : List (List String))
    (himg : images.mapM (helmImageSettings split_image_registry runAsUser) =
      some image_args) :
    get_helm_install_command name chart_name ns repository images runAsUser
        set_configs chart_version split_image_registry =
      some ((["k8s", "helm", "install", name, chart_name, "--namespace", ns,
            "--create-namespace"] ++
          (match repository with
           | none => []
           | some r => if r = "" then [] else ["--repo", r]) ++
          (match chart_version with
           | none => []
           | some v => if v = "" then [] else ["--version", v]) ++
          image_args.flatten) ++
        set_configs.flatMap (fun c => ["--set", c])) := by
  unfold get_helm_install_command
  rw [himg]
  simp [helmSetPairs_eq, List.append_assoc]

/-- Witness for C8: two raw settings are appended at the end of the generated
command, each right after its own "--set" token and in input order. -/
theorem c8_set_configs_verbatim_witness :
    get_helm_install_command ("app") ("chart") ("kube-system") none [] 584792
        (["a=1", "b=2"]) none false =
      some ((["k8s", "helm", "install", "app", "chart", "--namespace",
            "kube-system", "--create-namespace"] ++
          (match (none : Option String) with
           | none => []
           | some r => if r = "" then [] else ["--repo", r]) ++
          (match (none : Option String) with
           | none => []
           | some v => if v = "" then [] else ["--version", v]) ++
          ([] : List (List String)).flatten) ++
        (["a=1", "b=2"]).flatMap (fun c => ["--set", c])) :=
  c8_set_configs_verbatim ("app") ("chart") ("kube-system") none [] 584792
    (["a=1", "b=2"]) none false [] rfl
